import Mathlib

/-!
Verification development for the ShelfThis reading dashboard
(src/load_data.py).  The Python script is embedded shallowly:

* Python exceptions become an explicit error type threaded through
  an Except monad.
* JSON payloads from the Google Books endpoint become an inductive
  Json type, and the dict/list accesses performed by the script
  become total Lean functions that return the same value or raise
  the same exception class as the Python expression they embed.
* The streamlit cache_data decorator with ttl 86400 on
  get_book_cover becomes explicit state passing: a cache is an
  association list from the isbn argument to a stored value plus a
  timestamp, an entry is fresh while its age is below the ttl, and
  each call returns, besides its result, the updated cache and the
  list of URLs fetched from the network during the call (so that
  theorems can count outbound network requests).
* The network itself is a parameter: a function from a URL to
  either an HTTP response or a raised request exception.
-/

namespace ShelfThis

/-- Exception classes that the embedded Python code can raise. -/
inductive PyExn
  | keyError
  | indexError
  | typeError
  | attributeError
  | jsonDecodeError
  | requestError
deriving DecidableEq

/-- JSON values, as returned by response.json() in the script. -/
inductive Json
  | null
  | bool (b : Bool)
  | num (n : Int)
  | str (s : String)
  | arr (xs : List Json)
  | obj (kvs : List (String × Json))

/-- First binding of a key in a JSON object, as Python dict lookup. -/
def jsonLookup : List (String × Json) → String → Option Json
  | [], _ => none
  | (k, v) :: rest, key => if k = key then some v else jsonLookup rest key

/-- Python truthiness of a JSON value (used by the if tests of the script). -/
def Json.truthy : Json → Bool
  | .null => false
  | .bool b => b
  | .num n => n != 0
  | .str s => !s.data.isEmpty
  | .arr xs => !xs.isEmpty
  | .obj kvs => !kvs.isEmpty

/-- Embeds the Python subscript d[key] with a string key. -/
def Json.getItem (j : Json) (key : String) : Except PyExn Json :=
  match j with
  | .obj kvs =>
    match jsonLookup kvs key with
    | some v => .ok v
    | none => .error .keyError
  | _ => .error .typeError

/-- Embeds the Python subscript x[i] with an integer index. -/
def Json.pyIndex (j : Json) (i : Nat) : Except PyExn Json :=
  match j with
  | .arr xs =>
    match xs[i]? with
    | some v => .ok v
    | none => .error .indexError
  | .str s =>
    match s.data[i]? with
    | some c => .ok (.str (String.mk [c]))
    | none => .error .indexError
  | .obj _ => .error .keyError
  | _ => .error .typeError

/-- True when pat occurs as a contiguous sublist of s. -/
def occursIn (pat : List Char) : List Char → Bool
  | [] => pat.isPrefixOf []
  | c :: rest => pat.isPrefixOf (c :: rest) || occursIn pat rest

/-- Embeds the Python membership test key in j. -/
def Json.pyContains (j : Json) (key : String) : Except PyExn Bool :=
  match j with
  | .obj kvs => .ok (jsonLookup kvs key).isSome
  | .arr xs =>
    .ok (xs.any fun x =>
      match x with
      | .str t => decide (t = key)
      | _ => false)
  | .str s => .ok (occursIn key.data s.data)
  | _ => .error .typeError

/-- Embeds the Python call d.get(key, default); raises AttributeError
when the receiver is not a dict. -/
def Json.dictGet (j : Json) (key : String) (dflt : Json) : Except PyExn Json :=
  match j with
  | .obj kvs => .ok ((jsonLookup kvs key).getD dflt)
  | _ => .error .attributeError

/-- Embeds the Python method str.lower (elementwise char lowering). -/
def pyLower (s : String) : String :=
  String.mk (s.data.map Char.toLower)

/-- Embeds the Python method str.startswith. -/
def pyStartsWith (s p : String) : Bool :=
  p.data.isPrefixOf s.data

/-- Worker for pyReplace: replaces every non-overlapping occurrence of
pat, scanning left to right; the fuel argument is instantiated with the
length of the subject string, which bounds the number of steps. -/
def pyReplaceAux (pat rep : List Char) : Nat → List Char → List Char
  | _, [] => []
  | 0, s => s
  | Nat.succ fuel, c :: rest =>
    if !pat.isEmpty && pat.isPrefixOf (c :: rest) then
      rep ++ pyReplaceAux pat rep fuel (List.drop (pat.length - 1) rest)
    else
      c :: pyReplaceAux pat rep fuel rest

/-- Embeds the Python method str.replace with a nonempty pattern:
every occurrence of pat in s is replaced by rep. -/
def pyReplace (s pat rep : String) : String :=
  String.mk (pyReplaceAux pat.data rep.data s.data.length s.data)

/-- The Python expression cover_url.startswith(p): AttributeError unless
the receiver is a string. -/
def jsonStartsWith (j : Json) (p : String) : Except PyExn Bool :=
  match j with
  | .str s => .ok (pyStartsWith s p)
  | _ => .error .attributeError

/-- The Python expression cover_url.replace(pat, rep): AttributeError
unless the receiver is a string. -/
def jsonReplace (j : Json) (pat rep : String) : Except PyExn Json :=
  match j with
  | .str s => .ok (.str (pyReplace s pat rep))
  | _ => .error .attributeError

/-- An HTTP response: the status code, and the body as parsed JSON, or
none when the body is not valid JSON (so that response.json() raises). -/
structure HttpResponse where
  status_code : Nat
  body : Option Json

/-- Embeds response.json(): the parsed body, or a JSONDecodeError. -/
def HttpResponse.json (r : HttpResponse) : Except PyExn Json :=
  match r.body with
  | some j => .ok j
  | none => .error .jsonDecodeError

/-- The query URL built on line 37 of load_data.py. -/
def query (isbn : String) : String :=
  "https://www.googleapis.com/books/v1/volumes?q=isbn:" ++ isbn

/-- Lines 47 to 51 of load_data.py: the https normalization applied to
the extracted cover_url before it is returned. -/
def normalizeCover (cover_url : Json) : Except PyExn Json :=
  if cover_url.truthy then
    match jsonStartsWith cover_url "http:" with
    | .error e => .error e
    | .ok b =>
      if b then jsonReplace cover_url "http:" "https:" else .ok cover_url
  else .ok cover_url

/-- Lines 44 to 51 of load_data.py, from the first item of the items
list: item0 subscripted at volumeInfo, then .get of imageLinks with an
empty dict default, then .get of thumbnail with a None default, then
the https normalization. -/
def coverFromItem (item0 : Json) : Except PyExn Json :=
  match item0.getItem "volumeInfo" with
  | .error e => .error e
  | .ok volume_info =>
    match volume_info.dictGet "imageLinks" (.obj []) with
    | .error e => .error e
    | .ok image_links =>
      match image_links.dictGet "thumbnail" .null with
      | .error e => .error e
      | .ok cover_url => normalizeCover cover_url

/-- Lines 40 to 54 of load_data.py: what get_book_cover does with the
response of the network call. -/
def coverFromResponse (response : HttpResponse) : Except PyExn Json :=
  if response.status_code = 200 then
    match response.json with
    | .error e => .error e
    | .ok book_data =>
      match book_data.pyContains "items" with
      | .error e => .error e
      | .ok b =>
        if b then
          match book_data.getItem "items" with
          | .error e => .error e
          | .ok items =>
            match items.pyIndex 0 with
            | .error e => .error e
            | .ok item0 => coverFromItem item0
        else .ok .null
  else .ok .null

/-- The body of get_book_cover (lines 34 to 54), before the caching
decorator: the result value (Json.null embeds the Python None), paired
with the list of URLs fetched from the network during the call. -/
def get_book_cover_core (net : String → Except PyExn HttpResponse)
    (isbn : Option String) : Except PyExn Json × List String :=
  match isbn with
  | none => (.ok .null, [])
  | some s =>
    match net (query s) with
    | .error e => (.error e, [query s])
    | .ok response => (coverFromResponse response, [query s])

/-- One entry of the st.cache_data store for get_book_cover. -/
structure CacheEntry where
  value : Json
  timestamp : Nat

/-- The st.cache_data store: keyed by the isbn argument. -/
abbrev Cache := List (Option String × CacheEntry)

/-- First entry for a key, newest first (later writes shadow older ones). -/
def cacheLookup : Cache → Option String → Option CacheEntry
  | [], _ => none
  | (k, e) :: rest, isbn => if k = isbn then some e else cacheLookup rest isbn

/-- The ttl of the cache_data decorator on line 33, in seconds. -/
def TTL : Nat := 86400

/-- An entry is fresh while its age is below the ttl. -/
def isFresh (e : CacheEntry) (now : Nat) : Bool :=
  now - e.timestamp < TTL

/-- True when the key has no entry, or only a stale one. -/
def staleOrMissing (cache : Cache) (now : Nat) (isbn : Option String) : Bool :=
  match cacheLookup cache isbn with
  | none => true
  | some e => !isFresh e now

/-- The miss path of the cached function: run the body; a returned
value is stored with the current timestamp, a raised exception is not
stored (st.cache_data does not cache exceptions). -/
def get_book_cover_miss (cache : Cache) (now : Nat)
    (net : String → Except PyExn HttpResponse) (isbn : Option String) :
    Except PyExn Json × Cache × List String :=
  match get_book_cover_core net isbn with
  | (.ok v, tr) => (.ok v, (isbn, CacheEntry.mk v now) :: cache, tr)
  | (.error e, tr) => (.error e, cache, tr)

/-- get_book_cover as called by the script: the st.cache_data wrapper
around the body.  A fresh entry is returned as stored, with no network
traffic; otherwise the body runs. -/
def get_book_cover (cache : Cache) (now : Nat)
    (net : String → Except PyExn HttpResponse) (isbn : Option String) :
    Except PyExn Json × Cache × List String :=
  match cacheLookup cache isbn with
  | some e =>
    if isFresh e now then (.ok e.value, cache, []) else
      get_book_cover_miss cache now net isbn
  | none => get_book_cover_miss cache now net isbn

/-- The placeholder image URL on line 83 of load_data.py. -/
def PLACEHOLDER : String := "https://via.placeholder.com/120x180.png?text=No+Cover"

/-- Lines 74 to 83 of load_data.py: the loop of render_bookshelf.  Each
isbn is resolved through the cached get_book_cover; a truthy cover URL
is appended, any falsy result is replaced by the placeholder.  The
cache is threaded through the loop; a raised exception aborts it. -/
def render_bookshelf (net : String → Except PyExn HttpResponse) (now : Nat)
    (cache : Cache) (book_isbns : List (Option String)) :
    Except PyExn (List Json × Cache) :=
  match book_isbns with
  | [] => .ok ([], cache)
  | isbn :: rest =>
    match get_book_cover cache now net isbn with
    | (.error e, _, _) => .error e
    | (.ok cover_url, cache2, _) =>
      match render_bookshelf net now cache2 rest with
      | .error e => .error e
      | .ok (covers, cache3) =>
        .ok ((if cover_url.truthy then cover_url else .str PLACEHOLDER) :: covers,
          cache3)

/-- The value displayed for one isbn: the resolved cover when truthy,
the placeholder otherwise (the error arm is never reached when the
whole rendering pass succeeds). -/
def resolveDisplay (cache : Cache) (now : Nat)
    (net : String → Except PyExn HttpResponse) (isbn : Option String) : Json :=
  match (get_book_cover cache now net isbn).1 with
  | .ok v => if v.truthy then v else .str PLACEHOLDER
  | .error _ => .str PLACEHOLDER

/-- One record of the loaded dataset, projected to the field the
aggregations of lines 172 and 192 to 201 read: the completion date
(year and month), absent when the last date read cell was missing. -/
structure Row where
  last_date_read : Option (Nat × Nat)

/-- Line 94 and 192: data of read_year derived with .dt.year; missing
dates give a missing value. -/
def read_year (r : Row) : Option Nat :=
  r.last_date_read.map Prod.fst

/-- Line 193: data of read_month derived with .dt.month. -/
def read_month (r : Row) : Option Nat :=
  r.last_date_read.map Prod.snd

/-- A record whose completion date is present. -/
def hasDate (r : Row) : Bool :=
  r.last_date_read.isSome

/-- Line 172: data.groupby of read_year .size().  Pandas groupby drops
missing keys, so only the years of rows with a date appear; for each
such year the count of rows carrying it.  (Pandas emits the keys
sorted; key order is irrelevant to every property below, so the
distinct keys are listed in first-occurrence order.) -/
def books_per_year (rows : List Row) : List (Nat × Nat) :=
  ((rows.filterMap read_year).eraseDups).map fun y =>
    (y, (rows.filter fun r => decide (read_year r = some y)).length)

/-- Lines 198 and 201: the rows are first filtered to the selected
year, then grouped by read_month with .size(); missing month keys are
dropped by groupby. -/
def books_per_month (selected_year : Nat) (rows : List Row) : List (Nat × Nat) :=
  ((rows.filter fun r => decide (read_year r = some selected_year)).filterMap
      read_month).eraseDups.map fun m =>
    (m, ((rows.filter fun r => decide (read_year r = some selected_year)).filter
        fun r => decide (read_month r = some m)).length)

/-- One cell of the raw CSV frame: missing, a string, or a datetime
(year and month) after pd.to_datetime. -/
inductive Cell
  | na
  | s (v : String)
  | dt (y m : Nat)
deriving DecidableEq

/-- A dataframe: column names and rows of cells aligned with them. -/
structure Frame where
  columns : List String
  rows : List (List Cell)

/-- Line 10 of load_data.py. -/
def DATE_COLUMNS : List String := ["Date Added", "Last Date Read", "Dates Read"]

/-- Applies f to the cell at position i of a row. -/
def modifyCol (i : Nat) (f : Cell → Cell) : List Cell → List Cell
  | [] => []
  | c :: rest =>
    match i with
    | 0 => f c :: rest
    | Nat.succ j => c :: modifyCol j f rest

/-- Lines 23 to 25 of load_data.py for one date column: when the
lowercased name is among the columns, every cell of that column goes
through the injected pd.to_datetime embedding toDT; otherwise the
frame is unchanged. -/
def to_datetime_col (toDT : Cell → Cell) (f : Frame) (name : String) : Frame :=
  match f.columns.findIdx? fun c => decide (c = name) with
  | some i => Frame.mk f.columns (f.rows.map (modifyCol i toDT))
  | none => f

/-- Line 28 of load_data.py, cellwise: .str.lower() of the read status
cell equals the string read; non-string cells compare false. -/
def matchesRead : Cell → Bool
  | .s v => decide (pyLower v = "read")
  | _ => false

/-- Lines 16 to 25 of load_data.py: the frame after the lowercase
rename of the columns and the pd.to_datetime conversion (injected as
toDT) of every date column present. -/
def convertedFrame (toDT : Cell → Cell) (data : Frame) : Frame :=
  DATE_COLUMNS.foldl (fun f dc => to_datetime_col toDT f (pyLower dc))
    (Frame.mk (data.columns.map pyLower) data.rows)

/-- Lines 14 to 30 of load_data.py.  The CSV has already been read into
a frame (read_csv with nrows is input); column names are lowercased,
the date columns go through pd.to_datetime, and the rows are filtered
to those whose read status cell lowercases to read.  The subscript of
the read status column raises a KeyError when no such column exists. -/
def load_data (toDT : Cell → Cell) (data : Frame) : Except PyExn Frame :=
  match (convertedFrame toDT data).columns.findIdx?
      fun c => decide (c = "read status") with
  | none => .error .keyError
  | some i =>
    .ok (Frame.mk (convertedFrame toDT data).columns
      ((convertedFrame toDT data).rows.filter fun row => matchesRead (row.getD i .na)))

/-- A constant network: every URL yields the same response. -/
def netOf (r : HttpResponse) : String → Except PyExn HttpResponse :=
  fun _ => .ok r

/-- A network on which every request raises (for example a timeout). -/
def netErr : String → Except PyExn HttpResponse :=
  fun _ => .error .requestError

/-- A 200 response whose first item carries the given imageLinks dict. -/
def itemsBody (links : List (String × Json)) : HttpResponse :=
  HttpResponse.mk 200 (some (.obj [("items",
    .arr [.obj [("volumeInfo", .obj [("imageLinks", .obj links)])]])]))

/-- A concrete response item with a thumbnail link. -/
def sampleItem : Json :=
  Json.obj [("volumeInfo", Json.obj [("imageLinks",
    Json.obj [("thumbnail", Json.str "http://x/y.jpg")])])]

/-- A small raw frame used to exercise load_data on concrete data. -/
def sampleFrame : Frame :=
  Frame.mk ["Read Status", "Title"] [[.s "Read", .s "A"], [.s "to-read", .s "B"]]

/-- What load_data produces on sampleFrame. -/
def sampleLoaded : Frame :=
  Frame.mk ["read status", "title"] [[.s "Read", .s "A"]]

/-! ## Supporting lemmas -/

theorem isPrefixOf_append_self (l t : List Char) : l.isPrefixOf (l ++ t) = true :=
  List.isPrefixOf_iff_prefix.mpr (List.prefix_append l t)

theorem prefix_ne_nil {p s : List Char} (hp : p ≠ []) (h : p.isPrefixOf s = true) :
    s ≠ [] := by
  intro hs
  subst hs
  cases p with
  | nil => exact hp rfl
  | cons a l => simp [List.isPrefixOf] at h

theorem pyReplaceAux_no_occur (pat rep : List Char) (fuel : Nat) :
    ∀ s : List Char, occursIn pat s = false → pyReplaceAux pat rep fuel s = s := by
  induction fuel with
  | zero => intro s _; cases s <;> rfl
  | succ n ih =>
    intro s h
    cases s with
    | nil => rfl
    | cons c rest =>
      simp only [occursIn, Bool.or_eq_false_iff] at h
      simp [pyReplaceAux, h.1, ih rest h.2]

theorem pyReplaceAux_once (pat rep t : List Char) (fuel : Nat) (hp : pat ≠ [])
    (ht : occursIn pat t = false) :
    pyReplaceAux pat rep (Nat.succ fuel) (pat ++ t) = rep ++ t := by
  cases pat with
  | nil => exact absurd rfl hp
  | cons p ps =>
    show pyReplaceAux (p :: ps) rep (Nat.succ fuel) (p :: (ps ++ t)) = rep ++ t
    have hpre : (p :: ps).isPrefixOf (p :: (ps ++ t)) = true :=
      isPrefixOf_append_self (p :: ps) t
    simp only [pyReplaceAux, List.isEmpty, hpre, Bool.not_false, Bool.true_and,
      if_pos, List.length_cons, Nat.succ_sub_one]
    rw [List.drop_left, pyReplaceAux_no_occur _ _ _ _ ht]

theorem pyReplace_scheme (u : String) (h1 : pyStartsWith u "http:" = true)
    (h2 : occursIn ("http:".data) (u.data.drop 5) = false) :
    pyReplace u "http:" "https:" = "https:" ++ String.mk (u.data.drop 5) := by
  unfold pyStartsWith at h1
  obtain ⟨t, ht⟩ : ∃ t, "http:".data ++ t = u.data := by
    have := List.isPrefixOf_iff_prefix.mp h1
    exact this
  have hdrop : u.data.drop 5 = t := by
    rw [← ht]
    exact List.drop_left "http:".data t
  rw [hdrop] at h2 ⊢
  have hlen : u.data.length = Nat.succ (4 + t.length) := by
    rw [← ht]
    simp [List.length_append]
    omega
  unfold pyReplace
  rw [hlen, ← ht, pyReplaceAux_once _ _ _ _ (by decide) h2]
  rfl

theorem normalize_str_http (u : String) (h : pyStartsWith u "http:" = true) :
    normalizeCover (.str u) = .ok (.str (pyReplace u "http:" "https:")) := by
  have hne : u.data ≠ [] :=
    prefix_ne_nil (by decide) h
  have hemp : u.data.isEmpty = false := by
    cases hu : u.data with
    | nil => exact absurd hu hne
    | cons c cs => rfl
  simp [normalizeCover, Json.truthy, jsonStartsWith, jsonReplace, hemp, h]

theorem normalize_str_not_http (u : String) (h : pyStartsWith u "http:" = false) :
    normalizeCover (.str u) = .ok (.str u) := by
  cases hu : u.data.isEmpty with
  | true => simp [normalizeCover, Json.truthy, hu]
  | false => simp [normalizeCover, Json.truthy, jsonStartsWith, hu, h]

theorem cov_not200 (resp : HttpResponse) (h : resp.status_code ≠ 200) :
    coverFromResponse resp = .ok .null := by
  unfold coverFromResponse
  rw [if_neg h]

theorem cov_badJson : coverFromResponse (HttpResponse.mk 200 none) =
    .error .jsonDecodeError := rfl

theorem cov_noItems (kvs : List (String × Json)) (h : jsonLookup kvs "items" = none) :
    coverFromResponse (HttpResponse.mk 200 (some (.obj kvs))) = .ok .null := by
  simp [coverFromResponse, HttpResponse.json, Json.pyContains, h]

theorem cov_items_first (kvs : List (String × Json)) (x : Json) (xs : List Json)
    (h : jsonLookup kvs "items" = some (.arr (x :: xs))) :
    coverFromResponse (HttpResponse.mk 200 (some (.obj kvs))) = coverFromItem x := by
  simp [coverFromResponse, HttpResponse.json, Json.pyContains, Json.getItem,
    Json.pyIndex, h]

theorem cov_items_empty (kvs : List (String × Json))
    (h : jsonLookup kvs "items" = some (.arr [])) :
    coverFromResponse (HttpResponse.mk 200 (some (.obj kvs))) =
      .error .indexError := by
  simp [coverFromResponse, HttpResponse.json, Json.pyContains, Json.getItem,
    Json.pyIndex, h]

theorem item_thumbnail (ivs vvs lvs : List (String × Json)) (u : Json)
    (h3 : jsonLookup ivs "volumeInfo" = some (.obj vvs))
    (h4 : jsonLookup vvs "imageLinks" = some (.obj lvs))
    (h5 : jsonLookup lvs "thumbnail" = some u) :
    coverFromItem (.obj ivs) = normalizeCover u := by
  simp [coverFromItem, Json.getItem, Json.dictGet, h3, h4, h5]

theorem item_no_thumbnail (ivs vvs lvs : List (String × Json))
    (h3 : jsonLookup ivs "volumeInfo" = some (.obj vvs))
    (h4 : jsonLookup vvs "imageLinks" = some (.obj lvs))
    (h5 : jsonLookup lvs "thumbnail" = none) :
    coverFromItem (.obj ivs) = .ok .null := by
  simp [coverFromItem, Json.getItem, Json.dictGet, h3, h4, h5, normalizeCover,
    Json.truthy]

theorem item_no_links (ivs vvs : List (String × Json))
    (h3 : jsonLookup ivs "volumeInfo" = some (.obj vvs))
    (h4 : jsonLookup vvs "imageLinks" = none) :
    coverFromItem (.obj ivs) = .ok .null := by
  simp [coverFromItem, Json.getItem, Json.dictGet, h3, h4, jsonLookup,
    normalizeCover, Json.truthy]

theorem miss_fst (cache : Cache) (now : Nat) (net : String → Except PyExn HttpResponse)
    (isbn : Option String) :
    (get_book_cover_miss cache now net isbn).1 = (get_book_cover_core net isbn).1 := by
  cases hcore : get_book_cover_core net isbn with
  | mk r tr => cases r <;> simp [get_book_cover_miss, hcore]

theorem miss_trace (cache : Cache) (now : Nat) (net : String → Except PyExn HttpResponse)
    (isbn : Option String) :
    (get_book_cover_miss cache now net isbn).2.2 = (get_book_cover_core net isbn).2 := by
  cases hcore : get_book_cover_core net isbn with
  | mk r tr => cases r <;> simp [get_book_cover_miss, hcore]

theorem get_dispatch (cache : Cache) (now : Nat) (net : String → Except PyExn HttpResponse)
    (isbn : Option String) (h : staleOrMissing cache now isbn = true) :
    get_book_cover cache now net isbn = get_book_cover_miss cache now net isbn := by
  unfold staleOrMissing at h
  unfold get_book_cover
  cases hc : cacheLookup cache isbn with
  | none => rfl
  | some e =>
    rw [hc] at h
    simp only [Bool.not_eq_true'] at h
    simp [h]

theorem get_net_fst (cache : Cache) (now : Nat) (net : String → Except PyExn HttpResponse)
    (s : String) (resp : HttpResponse)
    (h0 : staleOrMissing cache now (some s) = true)
    (h1 : net (query s) = .ok resp) :
    (get_book_cover cache now net (some s)).1 = coverFromResponse resp := by
  rw [get_dispatch _ _ _ _ h0, miss_fst]
  simp [get_book_cover_core, h1]

theorem get_net_ok (cache : Cache) (now : Nat) (net : String → Except PyExn HttpResponse)
    (s : String) (resp : HttpResponse) (v : Json)
    (h0 : staleOrMissing cache now (some s) = true)
    (h1 : net (query s) = .ok resp)
    (h2 : coverFromResponse resp = .ok v) :
    get_book_cover cache now net (some s) =
      (.ok v, (some s, CacheEntry.mk v now) :: cache, [query s]) := by
  rw [get_dispatch _ _ _ _ h0]
  simp [get_book_cover_miss, get_book_cover_core, h1, h2]

theorem get_net_err (cache : Cache) (now : Nat) (net : String → Except PyExn HttpResponse)
    (s : String) (resp : HttpResponse) (e : PyExn)
    (h0 : staleOrMissing cache now (some s) = true)
    (h1 : net (query s) = .ok resp)
    (h2 : coverFromResponse resp = .error e) :
    get_book_cover cache now net (some s) = (.error e, cache, [query s]) := by
  rw [get_dispatch _ _ _ _ h0]
  simp [get_book_cover_miss, get_book_cover_core, h1, h2]

theorem get_raise (cache : Cache) (now : Nat) (net : String → Except PyExn HttpResponse)
    (s : String) (e : PyExn)
    (h0 : staleOrMissing cache now (some s) = true)
    (h1 : net (query s) = .error e) :
    get_book_cover cache now net (some s) = (.error e, cache, [query s]) := by
  rw [get_dispatch _ _ _ _ h0]
  simp [get_book_cover_miss, get_book_cover_core, h1]

theorem get_fst_congr (c1 c2 : Cache) (now : Nat)
    (net : String → Except PyExn HttpResponse) (x : Option String)
    (h : cacheLookup c1 x = cacheLookup c2 x) :
    (get_book_cover c1 now net x).1 = (get_book_cover c2 now net x).1 := by
  unfold get_book_cover
  rw [h]
  cases cacheLookup c2 x with
  | none => rw [miss_fst, miss_fst]
  | some e =>
    by_cases hf : isFresh e now
    · simp [hf]
    · simp [hf, miss_fst]

theorem miss_stable (cache : Cache) (now : Nat)
    (net : String → Except PyExn HttpResponse) (isbn : Option String)
    (r : Except PyExn Json) (c2 : Cache) (tr : List String)
    (h0 : staleOrMissing cache now isbn = true)
    (hg : get_book_cover_miss cache now net isbn = (r, c2, tr)) (x : Option String) :
    (get_book_cover c2 now net x).1 = (get_book_cover cache now net x).1 := by
  unfold get_book_cover_miss at hg
  rcases hcore : get_book_cover_core net isbn with ⟨rv, tr2⟩
  rw [hcore] at hg
  cases rv with
  | error e =>
    simp only [Prod.mk.injEq] at hg
    rw [← hg.2.1]
  | ok v =>
    simp only [Prod.mk.injEq] at hg
    rw [← hg.2.1]
    by_cases hx : isbn = x
    · subst hx
      have hl : (get_book_cover ((isbn, CacheEntry.mk v now) :: cache) now net isbn).1
          = .ok v := by
        have hfresh : isFresh (CacheEntry.mk v now) now = true := by
          simp [isFresh, TTL]
        simp [get_book_cover, cacheLookup, hfresh]
      have hr : (get_book_cover cache now net isbn).1 = .ok v := by
        rw [get_dispatch _ _ _ _ h0, miss_fst, hcore]
      rw [hl, hr]
    · exact get_fst_congr _ _ _ _ _ (by simp [cacheLookup, hx])

theorem get_stable (cache : Cache) (now : Nat)
    (net : String → Except PyExn HttpResponse) (isbn : Option String)
    (r : Except PyExn Json) (c2 : Cache) (tr : List String)
    (hg : get_book_cover cache now net isbn = (r, c2, tr)) (x : Option String) :
    (get_book_cover c2 now net x).1 = (get_book_cover cache now net x).1 := by
  unfold get_book_cover at hg
  cases hc : cacheLookup cache isbn with
  | none =>
    rw [hc] at hg
    exact miss_stable cache now net isbn r c2 tr (by simp [staleOrMissing, hc]) hg x
  | some e =>
    rw [hc] at hg
    by_cases hf : isFresh e now
    · simp only [hf, if_true, Prod.mk.injEq] at hg
      rw [← hg.2.1]
    · simp only [hf, if_false, Bool.false_eq_true] at hg
      exact miss_stable cache now net isbn r c2 tr
        (by simp [staleOrMissing, hc, hf]) hg x

theorem render_bookshelf_map (net : String → Except PyExn HttpResponse) (now : Nat) :
    ∀ (book_isbns : List (Option String)) (cache : Cache) (covers : List Json)
      (cache2 : Cache),
      render_bookshelf net now cache book_isbns = .ok (covers, cache2) →
      covers = book_isbns.map (resolveDisplay cache now net) := by
  intro book_isbns
  induction book_isbns with
  | nil =>
    intro cache covers cache2 h
    simp [render_bookshelf] at h
    simp [h.1]
  | cons isbn rest ih =>
    intro cache covers cache2 h
    unfold render_bookshelf at h
    split at h
    · nomatch h
    · rename_i v c2 tr hget
      split at h
      · nomatch h
      · rename_i covers2 c3 hrend
        simp only [Except.ok.injEq, Prod.mk.injEq] at h
        have htail := ih c2 covers2 c3 hrend
        rw [← h.1]
        have hhead : resolveDisplay cache now net isbn
            = if v.truthy then v else Json.str PLACEHOLDER := by
          unfold resolveDisplay
          rw [hget]
        have hfun : resolveDisplay c2 now net = resolveDisplay cache now net := by
          funext y
          unfold resolveDisplay
          rw [get_stable cache now net isbn (Except.ok v) c2 tr hget y]
        simp only [List.map_cons, hhead, htail, hfun]

theorem filterMap_year (rows : List Row) :
    (rows.filter hasDate).filterMap read_year = rows.filterMap read_year := by
  induction rows with
  | nil => rfl
  | cons r rest ih =>
    cases hr : r.last_date_read with
    | none => simp [List.filter_cons, List.filterMap_cons, hasDate, read_year, hr, ih]
    | some p => simp [List.filter_cons, List.filterMap_cons, hasDate, read_year, hr, ih]

theorem filter_year_and (y : Nat) (rows : List Row) :
    rows.filter (fun r => decide (read_year r = some y) && hasDate r) =
      rows.filter (fun r => decide (read_year r = some y)) := by
  induction rows with
  | nil => rfl
  | cons r rest ih =>
    cases hr : r.last_date_read with
    | none =>
      rw [List.filter_cons, List.filter_cons]
      have h1 : (decide (read_year r = some y) && hasDate r) = false := by
        simp [read_year, hr]
      have h2 : decide (read_year r = some y) = false := by
        simp [read_year, hr]
      simp only [h1, h2, Bool.false_eq_true, if_false]
      exact ih
    | some p =>
      rw [List.filter_cons, List.filter_cons]
      have h1 : (decide (read_year r = some y) && hasDate r) =
          decide (read_year r = some y) := by
        simp [hasDate, hr]
      rw [h1, ih]

theorem filter_year (y : Nat) (rows : List Row) :
    (rows.filter hasDate).filter (fun r => decide (read_year r = some y)) =
      rows.filter (fun r => decide (read_year r = some y)) := by
  rw [List.filter_filter]
  exact filter_year_and y rows

theorem to_datetime_col_columns (toDT : Cell → Cell) (f : Frame) (name : String) :
    (to_datetime_col toDT f name).columns = f.columns := by
  unfold to_datetime_col
  cases hf : f.columns.findIdx? fun c => decide (c = name) with
  | none => rfl
  | some i => rfl

theorem fold_columns (toDT : Cell → Cell) (l : List String) (f : Frame) :
    (l.foldl (fun fr dc => to_datetime_col toDT fr (pyLower dc)) f).columns =
      f.columns := by
  induction l generalizing f with
  | nil => rfl
  | cons a l ih => rw [List.foldl_cons, ih, to_datetime_col_columns]

/-! ## Claim theorems -/

/-- C1 counterexample: for the null identifier with no cached entry, the
claimed "exactly one outbound network call on a cache miss" fails: the
isna guard returns before the request, so zero URLs are fetched. -/
theorem C1_counterexample :
    cacheLookup ([] : Cache) none = none ∧
    (get_book_cover [] 0 (netOf (HttpResponse.mk 404 none)) none).2.2 = [] ∧
    ((get_book_cover [] 0 (netOf (HttpResponse.mk 404 none)) none).2.2).length = 0 :=
  ⟨rfl, rfl, rfl⟩

/-- C1 amended: for every non-null identifier, get_book_cover issues
exactly one network call when the cached entry is missing or stale; for
any identifier with a fresh entry it issues no call and returns the
stored value unchanged; and a null identifier issues no network call
even on a cache miss. -/
theorem C1_cache_discipline :
    (∀ (cache : Cache) (now : Nat) (net : String → Except PyExn HttpResponse)
        (s : String), staleOrMissing cache now (some s) = true →
        (get_book_cover cache now net (some s)).2.2 = [query s]) ∧
    (∀ (cache : Cache) (now : Nat) (net : String → Except PyExn HttpResponse)
        (isbn : Option String) (e : CacheEntry),
        cacheLookup cache isbn = some e → isFresh e now = true →
        get_book_cover cache now net isbn = (.ok e.value, cache, [])) ∧
    (∀ (cache : Cache) (now : Nat) (net : String → Except PyExn HttpResponse),
        (get_book_cover cache now net none).2.2 = []) := by
  refine ⟨?_, ?_, ?_⟩
  · intro cache now net s h
    rw [get_dispatch _ _ _ _ h, miss_trace]
    cases hn : net (query s) <;> simp [get_book_cover_core, hn]
  · intro cache now net isbn e hl hf
    unfold get_book_cover
    rw [hl]
    simp [hf]
  · intro cache now net
    unfold get_book_cover
    cases hl : cacheLookup cache none with
    | none => rfl
    | some e =>
      by_cases hf : isFresh e now
      · simp [hf]
      · simp [hf, get_book_cover_miss, get_book_cover_core]

/-- C1 witness: the three parts of C1_cache_discipline at concrete
inputs. -/
theorem C1_witness :
    (get_book_cover [] 0 (netOf (HttpResponse.mk 404 none)) (some "9")).2.2 =
      [query "9"] ∧
    get_book_cover [(some "9", CacheEntry.mk (Json.str "u") 5)] 5 netErr (some "9") =
      (.ok (Json.str "u"), [(some "9", CacheEntry.mk (Json.str "u") 5)], []) ∧
    (get_book_cover [] 3 netErr none).2.2 = [] :=
  ⟨C1_cache_discipline.1 [] 0 (netOf (HttpResponse.mk 404 none)) "9" rfl,
   C1_cache_discipline.2.1 [(some "9", CacheEntry.mk (Json.str "u") 5)] 5 netErr
     (some "9") (CacheEntry.mk (Json.str "u") 5) rfl (by decide),
   C1_cache_discipline.2.2 [] 3 netErr⟩

/-- C2 counterexample: the empty-string identifier is not caught by the
pd.isna guard, so get_book_cover does issue a network call for it (and
here the call even raises instead of returning null). -/
theorem C2_counterexample :
    (get_book_cover [] 0 netErr (some "")).2.2 = [query ""] ∧
    (get_book_cover [] 0 netErr (some "")).1 = .error .requestError ∧
    ([query ""] : List String) ≠ [] :=
  ⟨rfl, rfl, by decide⟩

/-- C2 amended: a null identifier issues no network call and resolves
to null whenever no fresh entry shadows it; an empty-string identifier
is not caught by the null check and does issue one network call. -/
theorem C2_null_identifier :
    (∀ (cache : Cache) (now : Nat) (net : String → Except PyExn HttpResponse),
        (get_book_cover cache now net none).2.2 = []) ∧
    (∀ (cache : Cache) (now : Nat) (net : String → Except PyExn HttpResponse),
        staleOrMissing cache now none = true →
        get_book_cover cache now net none =
          (.ok .null, (none, CacheEntry.mk .null now) :: cache, [])) ∧
    (∀ (cache : Cache) (now : Nat) (net : String → Except PyExn HttpResponse),
        staleOrMissing cache now (some "") = true →
        (get_book_cover cache now net (some "")).2.2 = [query ""]) := by
  refine ⟨?_, ?_, ?_⟩
  · intro cache now net
    unfold get_book_cover
    cases hl : cacheLookup cache none with
    | none => rfl
    | some e =>
      by_cases hf : isFresh e now
      · simp [hf]
      · simp [hf, get_book_cover_miss, get_book_cover_core]
  · intro cache now net h
    rw [get_dispatch _ _ _ _ h]
    rfl
  · intro cache now net h
    rw [get_dispatch _ _ _ _ h, miss_trace]
    cases hn : net (query "") <;> simp [get_book_cover_core, hn]

/-- C2 witness: the three parts of C2_null_identifier at concrete
inputs. -/
theorem C2_witness :
    (get_book_cover [(some "z", CacheEntry.mk .null 0)] 0 netErr none).2.2 = [] ∧
    get_book_cover [] 7 netErr none = (.ok .null, [(none, CacheEntry.mk .null 7)], []) ∧
    (get_book_cover [] 0 netErr (some "")).2.2 = [query ""] :=
  ⟨C2_null_identifier.1 [(some "z", CacheEntry.mk .null 0)] 0 netErr,
   C2_null_identifier.2.1 [] 7 netErr rfl,
   C2_null_identifier.2.2 [] 0 netErr rfl⟩

/-- C3 counterexample: a raised network error (for example a timeout)
and a malformed 200 payload both propagate an exception out of
get_book_cover instead of resolving to null, and nothing is cached. -/
theorem C3_counterexample :
    get_book_cover [] 0 netErr (some "1") = (.error .requestError, [], [query "1"]) ∧
    get_book_cover [] 0 (netOf (HttpResponse.mk 200 none)) (some "1") =
      (.error .jsonDecodeError, [], [query "1"]) ∧
    (Except.error PyExn.requestError : Except PyExn Json) ≠ .ok .null :=
  ⟨rfl, rfl, fun h => nomatch h⟩

/-- C3 amended: on a non-success status, a payload without an items
key, or a first item without image links, get_book_cover returns null
and caches null for the identifier; but a raised network exception or a
malformed payload propagates and caches nothing. -/
theorem C3_failure_handling :
    (∀ (cache : Cache) (now : Nat) (net : String → Except PyExn HttpResponse)
        (s : String) (resp : HttpResponse),
        staleOrMissing cache now (some s) = true →
        net (query s) = .ok resp → resp.status_code ≠ 200 →
        get_book_cover cache now net (some s) =
          (.ok .null, (some s, CacheEntry.mk .null now) :: cache, [query s])) ∧
    (∀ (cache : Cache) (now : Nat) (net : String → Except PyExn HttpResponse)
        (s : String) (kvs : List (String × Json)),
        staleOrMissing cache now (some s) = true →
        net (query s) = .ok (HttpResponse.mk 200 (some (.obj kvs))) →
        jsonLookup kvs "items" = none →
        get_book_cover cache now net (some s) =
          (.ok .null, (some s, CacheEntry.mk .null now) :: cache, [query s])) ∧
    (∀ (cache : Cache) (now : Nat) (net : String → Except PyExn HttpResponse)
        (s : String) (kvs ivs vvs : List (String × Json)) (rest : List Json),
        staleOrMissing cache now (some s) = true →
        net (query s) = .ok (HttpResponse.mk 200 (some (.obj kvs))) →
        jsonLookup kvs "items" = some (.arr (.obj ivs :: rest)) →
        jsonLookup ivs "volumeInfo" = some (.obj vvs) →
        jsonLookup vvs "imageLinks" = none →
        get_book_cover cache now net (some s) =
          (.ok .null, (some s, CacheEntry.mk .null now) :: cache, [query s])) ∧
    (∀ (cache : Cache) (now : Nat) (net : String → Except PyExn HttpResponse)
        (s : String) (e : PyExn),
        staleOrMissing cache now (some s) = true →
        net (query s) = .error e →
        get_book_cover cache now net (some s) = (.error e, cache, [query s])) ∧
    (∀ (cache : Cache) (now : Nat) (net : String → Except PyExn HttpResponse)
        (s : String),
        staleOrMissing cache now (some s) = true →
        net (query s) = .ok (HttpResponse.mk 200 none) →
        get_book_cover cache now net (some s) =
          (.error .jsonDecodeError, cache, [query s])) := by
  refine ⟨?_, ?_, ?_, ?_, ?_⟩
  · intro cache now net s resp h0 h1 h2
    exact get_net_ok _ _ _ _ _ _ h0 h1 (cov_not200 _ h2)
  · intro cache now net s kvs h0 h1 h2
    exact get_net_ok _ _ _ _ _ _ h0 h1 (cov_noItems _ h2)
  · intro cache now net s kvs ivs vvs rest h0 h1 h2 h3 h4
    refine get_net_ok _ _ _ _ _ _ h0 h1 ?_
    rw [cov_items_first _ _ _ h2]
    exact item_no_links _ _ h3 h4
  · intro cache now net s e h0 h1
    exact get_raise _ _ _ _ _ h0 h1
  · intro cache now net s h0 h1
    exact get_net_err _ _ _ _ _ _ h0 h1 cov_badJson

/-- C3 witness: the five parts of C3_failure_handling at concrete
inputs. -/
theorem C3_witness :
    get_book_cover [] 0 (netOf (HttpResponse.mk 404 (some .null))) (some "1") =
      (.ok .null, [(some "1", CacheEntry.mk .null 0)], [query "1"]) ∧
    get_book_cover [] 0 (netOf (HttpResponse.mk 200 (some (.obj [])))) (some "2") =
      (.ok .null, [(some "2", CacheEntry.mk .null 0)], [query "2"]) ∧
    get_book_cover [] 0
        (netOf (HttpResponse.mk 200 (some (.obj [("items",
          .arr [.obj [("volumeInfo", .obj [])]])])))) (some "3") =
      (.ok .null, [(some "3", CacheEntry.mk .null 0)], [query "3"]) ∧
    get_book_cover [] 0 netErr (some "4") =
      (.error .requestError, [], [query "4"]) ∧
    get_book_cover [] 0 (netOf (HttpResponse.mk 200 none)) (some "5") =
      (.error .jsonDecodeError, [], [query "5"]) :=
  ⟨C3_failure_handling.1 [] 0 (netOf (HttpResponse.mk 404 (some .null))) "1"
     (HttpResponse.mk 404 (some .null)) rfl rfl (by decide),
   C3_failure_handling.2.1 [] 0 (netOf (HttpResponse.mk 200 (some (.obj [])))) "2"
     [] rfl rfl rfl,
   C3_failure_handling.2.2.1 [] 0
     (netOf (HttpResponse.mk 200 (some (.obj [("items",
       .arr [.obj [("volumeInfo", .obj [])]])]))))
     "3" [("items", .arr [.obj [("volumeInfo", .obj [])]])]
     [("volumeInfo", .obj [])] [] [] rfl rfl rfl rfl rfl,
   C3_failure_handling.2.2.2.1 [] 0 netErr "4" .requestError rfl rfl,
   C3_failure_handling.2.2.2.2 [] 0 (netOf (HttpResponse.mk 200 none)) "5" rfl rfl⟩

/-- C4 counterexample: the rewrite is a plain str.replace, so for a
thumbnail whose URL contains the insecure prefix a second time, both
occurrences are rewritten, not only the scheme. -/
theorem C4_counterexample :
    (get_book_cover [] 0
        (netOf (itemsBody [("thumbnail", .str "http://x/http://y.jpg")]))
        (some "1")).1 = .ok (.str "https://x/https://y.jpg") ∧
    "https://x/https://y.jpg" ≠ "https://x/http://y.jpg" :=
  ⟨rfl, by decide⟩

/-- C4 amended: when the extracted thumbnail URL begins with the
insecure prefix, get_book_cover returns and caches the URL with every
occurrence of that prefix replaced by the secure one (which equals the
scheme-only rewrite whenever the prefix occurs nowhere else in the
URL); a URL not beginning with the insecure prefix is returned
unchanged. -/
theorem C4_https_rewrite (cache : Cache) (now : Nat)
    (net : String → Except PyExn HttpResponse) (s : String)
    (kvs ivs vvs lvs : List (String × Json)) (rest : List Json) (u : String)
    (h0 : staleOrMissing cache now (some s) = true)
    (h1 : net (query s) = .ok (HttpResponse.mk 200 (some (.obj kvs))))
    (h2 : jsonLookup kvs "items" = some (.arr (.obj ivs :: rest)))
    (h3 : jsonLookup ivs "volumeInfo" = some (.obj vvs))
    (h4 : jsonLookup vvs "imageLinks" = some (.obj lvs))
    (h5 : jsonLookup lvs "thumbnail" = some (.str u)) :
    (pyStartsWith u "http:" = true →
      get_book_cover cache now net (some s) =
        (.ok (.str (pyReplace u "http:" "https:")),
         (some s, CacheEntry.mk (.str (pyReplace u "http:" "https:")) now) :: cache,
         [query s])) ∧
    (pyStartsWith u "http:" = true →
      occursIn ("http:".data) (u.data.drop 5) = false →
      pyReplace u "http:" "https:" = "https:" ++ String.mk (u.data.drop 5)) ∧
    (pyStartsWith u "http:" = false →
      get_book_cover cache now net (some s) =
        (.ok (.str u), (some s, CacheEntry.mk (.str u) now) :: cache, [query s])) := by
  have hcov : ∀ v : Json, normalizeCover (.str u) = .ok v →
      coverFromResponse (HttpResponse.mk 200 (some (.obj kvs))) = .ok v := by
    intro v hv
    rw [cov_items_first _ _ _ h2, item_thumbnail _ _ _ _ h3 h4 h5, hv]
  refine ⟨?_, ?_, ?_⟩
  · intro hu
    exact get_net_ok _ _ _ _ _ _ h0 h1 (hcov _ (normalize_str_http u hu))
  · intro hu hocc
    exact pyReplace_scheme u hu hocc
  · intro hu
    exact get_net_ok _ _ _ _ _ _ h0 h1 (hcov _ (normalize_str_not_http u hu))

/-- C4 witness: C4_https_rewrite at the concrete thumbnail
http://x/y.jpg, together with the concrete value of the rewrite. -/
theorem C4_witness :
    get_book_cover [] 0 (netOf (itemsBody [("thumbnail", .str "http://x/y.jpg")]))
        (some "123") =
      (.ok (.str (pyReplace "http://x/y.jpg" "http:" "https:")),
       [(some "123",
         CacheEntry.mk (.str (pyReplace "http://x/y.jpg" "http:" "https:")) 0)],
       [query "123"]) ∧
    pyReplace "http://x/y.jpg" "http:" "https:" =
      "https:" ++ String.mk ("http://x/y.jpg".data.drop 5) ∧
    pyReplace "http://x/y.jpg" "http:" "https:" = "https://x/y.jpg" := by
  have H := C4_https_rewrite [] 0
    (netOf (itemsBody [("thumbnail", .str "http://x/y.jpg")])) "123"
    [("items", .arr [.obj [("volumeInfo",
      .obj [("imageLinks", .obj [("thumbnail", .str "http://x/y.jpg")])])]])]
    [("volumeInfo", .obj [("imageLinks", .obj [("thumbnail", .str "http://x/y.jpg")])])]
    [("imageLinks", .obj [("thumbnail", .str "http://x/y.jpg")])]
    [("thumbnail", .str "http://x/y.jpg")]
    [] "http://x/y.jpg" rfl rfl rfl rfl rfl rfl
  exact ⟨H.1 (by decide), H.2.1 (by decide) (by decide), rfl⟩

/-- C5 counterexample: a first item whose only image link is
smallThumbnail resolves to null, although a smallest available
cover-image URL exists among its image links. -/
theorem C5_counterexample :
    (get_book_cover [] 0
        (netOf (itemsBody [("smallThumbnail", .str "http://a/b.jpg")]))
        (some "1")).1 = .ok .null ∧
    jsonLookup [("smallThumbnail", Json.str "http://a/b.jpg")] "smallThumbnail" =
      some (.str "http://a/b.jpg") ∧
    Json.null ≠ Json.str "http://a/b.jpg" ∧
    Json.null ≠ Json.str "https://a/b.jpg" :=
  ⟨rfl, rfl, fun h => Json.noConfusion h, fun h => Json.noConfusion h⟩

/-- C5 amended: get_book_cover selects exactly the thumbnail entry of
the first item and returns it normalized; when the first item has no
thumbnail entry, it returns and caches null, whatever other image links
are present. -/
theorem C5_thumbnail_selection (cache : Cache) (now : Nat)
    (net : String → Except PyExn HttpResponse) (s : String)
    (kvs ivs vvs lvs : List (String × Json)) (rest : List Json)
    (h0 : staleOrMissing cache now (some s) = true)
    (h1 : net (query s) = .ok (HttpResponse.mk 200 (some (.obj kvs))))
    (h2 : jsonLookup kvs "items" = some (.arr (.obj ivs :: rest)))
    (h3 : jsonLookup ivs "volumeInfo" = some (.obj vvs))
    (h4 : jsonLookup vvs "imageLinks" = some (.obj lvs)) :
    (∀ u : Json, jsonLookup lvs "thumbnail" = some u →
      (get_book_cover cache now net (some s)).1 = normalizeCover u) ∧
    (jsonLookup lvs "thumbnail" = none →
      get_book_cover cache now net (some s) =
        (.ok .null, (some s, CacheEntry.mk .null now) :: cache, [query s])) := by
  refine ⟨?_, ?_⟩
  · intro u h5
    rw [get_net_fst _ _ _ _ _ h0 h1, cov_items_first _ _ _ h2,
      item_thumbnail _ _ _ _ h3 h4 h5]
  · intro h5
    refine get_net_ok _ _ _ _ _ _ h0 h1 ?_
    rw [cov_items_first _ _ _ h2]
    exact item_no_thumbnail _ _ _ h3 h4 h5

/-- C5 witness: the two parts of C5_thumbnail_selection at concrete
inputs. -/
theorem C5_witness :
    (get_book_cover [] 0 (netOf (itemsBody [("thumbnail", .str "v")]))
        (some "7")).1 = normalizeCover (.str "v") ∧
    get_book_cover [] 0 (netOf (itemsBody [("smallThumbnail", .str "w")]))
        (some "8") =
      (.ok .null, [(some "8", CacheEntry.mk .null 0)], [query "8"]) :=
  ⟨(C5_thumbnail_selection [] 0 (netOf (itemsBody [("thumbnail", .str "v")])) "7"
      [("items", .arr [.obj [("volumeInfo",
        .obj [("imageLinks", .obj [("thumbnail", .str "v")])])]])]
      [("volumeInfo", .obj [("imageLinks", .obj [("thumbnail", .str "v")])])]
      [("imageLinks", .obj [("thumbnail", .str "v")])]
      [("thumbnail", .str "v")] [] rfl rfl rfl rfl rfl).1 (.str "v") rfl,
   (C5_thumbnail_selection [] 0 (netOf (itemsBody [("smallThumbnail", .str "w")])) "8"
      [("items", .arr [.obj [("volumeInfo",
        .obj [("imageLinks", .obj [("smallThumbnail", .str "w")])])]])]
      [("volumeInfo", .obj [("imageLinks", .obj [("smallThumbnail", .str "w")])])]
      [("imageLinks", .obj [("smallThumbnail", .str "w")])]
      [("smallThumbnail", .str "w")] [] rfl rfl rfl rfl rfl).2 rfl⟩

/-- C9: on a 200 response whose items key maps to an empty list,
get_book_cover raises an IndexError at the subscript of the first item
instead of returning null. -/
theorem C9_empty_items_index_error (cache : Cache) (now : Nat)
    (net : String → Except PyExn HttpResponse) (s : String)
    (kvs : List (String × Json))
    (h0 : staleOrMissing cache now (some s) = true)
    (h1 : net (query s) = .ok (HttpResponse.mk 200 (some (.obj kvs))))
    (h2 : jsonLookup kvs "items" = some (.arr [])) :
    (get_book_cover cache now net (some s)).1 = .error .indexError := by
  rw [get_net_fst _ _ _ _ _ h0 h1, cov_items_empty _ h2]

/-- C9 witness: C9_empty_items_index_error at a concrete empty items
response, plus the fact that the raised error is not a null result. -/
theorem C9_witness :
    (get_book_cover [] 0
        (netOf (HttpResponse.mk 200 (some (.obj [("items", .arr [])]))))
        (some "1")).1 = .error .indexError ∧
    (Except.error PyExn.indexError : Except PyExn Json) ≠ .ok .null :=
  ⟨C9_empty_items_index_error [] 0
     (netOf (HttpResponse.mk 200 (some (.obj [("items", .arr [])])))) "1"
     [("items", .arr [])] rfl rfl rfl,
   fun h => nomatch h⟩

/-- C10: for two resolutions whose 200 responses both carry a non-empty
items list with the same first item, the returned values coincide,
whatever the later items and the other keys of the payloads are. -/
theorem C10_first_item_only (cache1 cache2 : Cache) (now1 now2 : Nat)
    (net1 net2 : String → Except PyExn HttpResponse) (s1 s2 : String)
    (kv1 kv2 : List (String × Json)) (x : Json) (xs ys : List Json)
    (g1 : staleOrMissing cache1 now1 (some s1) = true)
    (g2 : staleOrMissing cache2 now2 (some s2) = true)
    (h1 : net1 (query s1) = .ok (HttpResponse.mk 200 (some (.obj kv1))))
    (h2 : net2 (query s2) = .ok (HttpResponse.mk 200 (some (.obj kv2))))
    (h3 : jsonLookup kv1 "items" = some (.arr (x :: xs)))
    (h4 : jsonLookup kv2 "items" = some (.arr (x :: ys))) :
    (get_book_cover cache1 now1 net1 (some s1)).1 =
      (get_book_cover cache2 now2 net2 (some s2)).1 := by
  rw [get_net_fst _ _ _ _ _ g1 h1, get_net_fst _ _ _ _ _ g2 h2,
    cov_items_first _ _ _ h3, cov_items_first _ _ _ h4]

/-- C10 witness: the same first item inside two different payloads (a
second payload with an extra key and an extra later item) yields the
same returned value. -/
theorem C10_witness :
    (get_book_cover [] 0
        (netOf (HttpResponse.mk 200 (some (.obj [("items", .arr [sampleItem])]))))
        (some "1")).1 =
      (get_book_cover [] 5
        (netOf (HttpResponse.mk 200 (some (.obj [("extra", .num 3),
          ("items", .arr [sampleItem, .str "junk"])]))))
        (some "2")).1 :=
  C10_first_item_only [] [] 0 5
    (netOf (HttpResponse.mk 200 (some (.obj [("items", .arr [sampleItem])]))))
    (netOf (HttpResponse.mk 200 (some (.obj [("extra", .num 3),
      ("items", .arr [sampleItem, .str "junk"])]))))
    "1" "2"
    [("items", .arr [sampleItem])]
    [("extra", .num 3), ("items", .arr [sampleItem, .str "junk"])]
    sampleItem [] [.str "junk"] rfl rfl rfl rfl rfl rfl

/-- C6 counterexample: when a resolution yields a non-null but falsy
value (the empty-string URL), render_bookshelf substitutes the
placeholder instead of the resolved URL, although the resolution was
not null. -/
theorem C6_counterexample :
    render_bookshelf netErr 0 [(some "a", CacheEntry.mk (.str "") 0)] [some "a"] =
      .ok ([.str PLACEHOLDER], [(some "a", CacheEntry.mk (.str "") 0)]) ∧
    (get_book_cover [(some "a", CacheEntry.mk (.str "") 0)] 0 netErr (some "a")).1 =
      .ok (.str "") ∧
    Json.str "" ≠ Json.null ∧
    PLACEHOLDER ≠ "" :=
  ⟨rfl, rfl, fun h => Json.noConfusion h, by decide⟩

/-- C6 amended: a successful rendering pass returns one entry per input
identifier, in input order with duplicates preserved and no filtering;
each position holds the value resolved for the identifier at that
position when that value is truthy, and the placeholder URL when the
resolution is null or otherwise falsy. -/
theorem C6_render_shape (net : String → Except PyExn HttpResponse) (now : Nat)
    (cache : Cache) (book_isbns : List (Option String)) (covers : List Json)
    (cache2 : Cache)
    (h : render_bookshelf net now cache book_isbns = .ok (covers, cache2)) :
    covers.length = book_isbns.length ∧
    covers = book_isbns.map (resolveDisplay cache now net) := by
  have hm := render_bookshelf_map net now book_isbns cache covers cache2 h
  exact ⟨by rw [hm, List.length_map], hm⟩

/-- C6 witness: C6_render_shape on a concrete pass with a duplicate
identifier and a null resolution in the middle. -/
theorem C6_witness :
    ([Json.str "https://x/y.jpg", .str PLACEHOLDER, .str "https://x/y.jpg"] :
        List Json).length =
      ([some "1", none, some "1"] : List (Option String)).length ∧
    ([Json.str "https://x/y.jpg", .str PLACEHOLDER, .str "https://x/y.jpg"] :
        List Json) =
      [some "1", none, some "1"].map (resolveDisplay [] 0
        (netOf (itemsBody [("thumbnail", .str "http://x/y.jpg")]))) :=
  C6_render_shape (netOf (itemsBody [("thumbnail", .str "http://x/y.jpg")])) 0 []
    [some "1", none, some "1"]
    [Json.str "https://x/y.jpg", .str PLACEHOLDER, .str "https://x/y.jpg"]
    [(none, CacheEntry.mk .null 0),
     (some "1", CacheEntry.mk (.str "https://x/y.jpg") 0)] rfl

/-- C7: a record without a completion date has no read year and no read
month, and the per-year and per-month aggregations are unchanged when
such records are removed, so they neither contribute to any count nor
make the aggregation fail. -/
theorem C7_missing_dates :
    (∀ r : Row, r.last_date_read = none → read_year r = none ∧ read_month r = none) ∧
    (∀ rows : List Row, books_per_year rows = books_per_year (rows.filter hasDate)) ∧
    (∀ (y : Nat) (rows : List Row),
      books_per_month y rows = books_per_month y (rows.filter hasDate)) := by
  refine ⟨?_, ?_, ?_⟩
  · intro r h
    simp [read_year, read_month, h]
  · intro rows
    unfold books_per_year
    rw [filterMap_year]
    simp only [filter_year]
  · intro y rows
    unfold books_per_month
    simp only [filter_year]

/-- C7 witness: the three parts of C7_missing_dates at a concrete
record list with one missing completion date. -/
theorem C7_witness :
    (read_year (Row.mk none) = none ∧ read_month (Row.mk none) = none) ∧
    books_per_year [Row.mk none, Row.mk (some (2024, 5))] =
      books_per_year ([Row.mk none, Row.mk (some (2024, 5))].filter hasDate) ∧
    books_per_month 2024 [Row.mk none, Row.mk (some (2024, 5))] =
      books_per_month 2024 ([Row.mk none, Row.mk (some (2024, 5))].filter hasDate) :=
  ⟨C7_missing_dates.1 (Row.mk none) rfl,
   C7_missing_dates.2.1 [Row.mk none, Row.mk (some (2024, 5))],
   C7_missing_dates.2.2 2024 [Row.mk none, Row.mk (some (2024, 5))]⟩

/-- C8: every frame load_data returns has its column names lowercased,
and every surviving row has a read status cell that is a string whose
lowercasing is exactly read. -/
theorem C8_load_data (toDT : Cell → Cell) (data out : Frame)
    (h : load_data toDT data = .ok out) :
    out.columns = data.columns.map pyLower ∧
    ∃ i, out.columns.findIdx? (fun c => decide (c = "read status")) = some i ∧
      ∀ row ∈ out.rows, ∃ v, row.getD i .na = .s v ∧ pyLower v = "read" := by
  have hcols : (convertedFrame toDT data).columns = data.columns.map pyLower := by
    unfold convertedFrame
    rw [fold_columns]
  unfold load_data at h
  cases hidx : (convertedFrame toDT data).columns.findIdx?
      fun c => decide (c = "read status") with
  | none =>
    rw [hidx] at h
    exact absurd h (fun hx => Except.noConfusion hx)
  | some i =>
    rw [hidx] at h
    have hout : out = Frame.mk (convertedFrame toDT data).columns
        ((convertedFrame toDT data).rows.filter fun row =>
          matchesRead (row.getD i .na)) := by
      injection h with h2
      exact h2.symm
    subst hout
    refine ⟨hcols, i, hidx, ?_⟩
    intro row hrow
    have hm : matchesRead (row.getD i Cell.na) = true :=
      (List.mem_filter.mp hrow).2
    cases hc : row.getD i Cell.na with
    | na => rw [hc] at hm; exact absurd hm (by simp [matchesRead])
    | dt y m => rw [hc] at hm; exact absurd hm (by simp [matchesRead])
    | s v =>
      rw [hc] at hm
      simp only [matchesRead, decide_eq_true_eq] at hm
      exact ⟨v, rfl, hm⟩

/-- C8 witness: C8_load_data on a concrete two-row frame, one row
marked Read (kept) and one marked to-read (dropped). -/
theorem C8_witness :
    sampleLoaded.columns = sampleFrame.columns.map pyLower ∧
    ∃ i, sampleLoaded.columns.findIdx? (fun c => decide (c = "read status")) =
        some i ∧
      ∀ row ∈ sampleLoaded.rows, ∃ v, row.getD i .na = .s v ∧ pyLower v = "read" :=
  C8_load_data (fun c => c) sampleFrame sampleLoaded rfl

end ShelfThis
